import Mathlib

/-!
Verification development for the prompt-optimization engine of the
`prompt-learning-mcp` repository (`src/optimizer.ts`, `src/embeddings.ts`).

The TypeScript code is shallowly embedded: JavaScript numbers are modelled
as exact rationals (`ℚ`), strings as Lean `String` (the prompts involved are
ASCII, where JS UTF-16 code-unit operations and Lean character operations
agree), and the external LLM calls of the production code are modelled as
oracle parameters: each judge call returns a `JudgeResponse` (the parse
outcome of the response content) and each generation call returns the
optional response content.  Fallible operations return `Except`.
-/

set_option maxRecDepth 100000

/-- Substring test at the head of a character list, used to embed the
JavaScript `String.prototype.includes` check. -/
def listPrefix : List Char → List Char → Bool
  | [], _ => true
  | _ :: _, [] => false
  | a :: as, b :: bs => a == b && listPrefix as bs

/-- Substring occurrence test on character lists (naive scan). -/
def listInfix (pat : List Char) : List Char → Bool
  | [] => listPrefix pat []
  | c :: rest => listPrefix pat (c :: rest) || listInfix pat rest

/-- Embedding of JavaScript `s.includes(pat)`. -/
def includes (s pat : String) : Bool :=
  listInfix pat.toList s.toList

/-- Embedding of JavaScript `s.toLowerCase()` (character-wise lowering; the
strings involved are ASCII, where the two agree). -/
def strToLower (s : String) : String :=
  ⟨s.toList.map Char.toLower⟩

/-- Embedding of JavaScript `s.trim()`: strip leading and trailing
whitespace. -/
def strTrim (s : String) : String :=
  ⟨((s.toList.dropWhile Char.isWhitespace).reverse.dropWhile Char.isWhitespace).reverse⟩

/-- Embedding of JavaScript `s.slice(0, n)`: the first `n` characters. -/
def strTake (s : String) (n : Nat) : String :=
  ⟨s.toList.take n⟩

/-- Embedding of the JavaScript regular-expression test `/\d\./.test(s)`:
some decimal digit immediately followed by a dot. -/
def hasDigitDot : List Char → Bool
  | a :: b :: rest => (a.isDigit && b == '.') || hasDigitDot (b :: rest)
  | _ => false

/-- Embedding of JavaScript `prompt.match(/\d\./)` being non-null. -/
def matchDigitDot (s : String) : Bool :=
  hasDigitDot s.toList

/-- Embedding of JavaScript `arr.slice(-n)` for `n > 0`: the last `n`
elements (the whole list when it is shorter than `n`). -/
def lastSlice (n : Nat) (l : List α) : List α :=
  l.drop (l.length - n)

/-- Embedding of `Math.max(...recent)` for the non-empty lists it is applied
to in `checkConvergence` (the `[]` case, `-Infinity` in JS, is arbitrary). -/
def listMax : List ℚ → ℚ
  | [] => 0
  | x :: xs => xs.foldl max x

/-- Embedding of `Math.min(...recent)` for the non-empty lists it is applied
to in `checkConvergence` (the `[]` case, `Infinity` in JS, is arbitrary). -/
def listMin : List ℚ → ℚ
  | [] => 0
  | x :: xs => xs.foldl min x

/-- Configuration of the optimizer, `OptimizationConfig` in `optimizer.ts`. -/
structure Config where
  maxIterations : Nat
  targetScore : ℚ
  convergenceThreshold : ℚ
  convergenceWindow : Nat
deriving DecidableEq

/-- The `DEFAULT_CONFIG` of `optimizer.ts`. -/
def DEFAULT_CONFIG : Config :=
  { maxIterations := 10
    targetScore := 95/100
    convergenceThreshold := 2/100
    convergenceWindow := 3 }

/-- One entry of `IMPROVEMENT_PATTERNS`: a predicate, a rewrite, and the
advertised expected improvement. -/
structure Pattern where
  name : String
  check : String → Bool
  apply : String → String
  expectedImprovement : ℚ

/-- The fixed `IMPROVEMENT_PATTERNS` list of `optimizer.ts`, in declaration
order.  Each `check`/`apply` mirrors the TypeScript arrow functions; string
length, `includes`, `toLowerCase` and the `/\d\./`-free checks are embedded
by the helpers above. -/
def IMPROVEMENT_PATTERNS : List Pattern :=
  [ { name := "add_structure"
      check := fun p => !(includes p "1.") && !(includes p "step") && !(includes p "first")
      apply := fun p => p ++ "\n\nProvide your response in a structured format with clear sections."
      expectedImprovement := 15/100 }
  , { name := "add_chain_of_thought"
      check := fun p => !(includes (strToLower p) "step by step") && !(includes (strToLower p) "think through")
      apply := fun p => p ++ "\n\nThink through this step by step, showing your reasoning."
      expectedImprovement := 20/100 }
  , { name := "add_constraints"
      check := fun p => decide (p.length < 150) && !(includes p "Requirements")
      apply := fun p => p ++ "\n\nRequirements:\n- Be specific and precise\n- Support claims with evidence\n- Stay focused on the core question"
      expectedImprovement := 10/100 }
  , { name := "add_output_format"
      check := fun p => !(includes (strToLower p) "format") && !(includes (strToLower p) "respond with")
      apply := fun p => p ++ "\n\nFormat your response clearly with headers where appropriate."
      expectedImprovement := 8/100 }
  , { name := "add_context_request"
      check := fun p => !(includes (strToLower p) "context") && !(includes (strToLower p) "background")
      apply := fun p => p ++ "\n\nConsider relevant context and background information."
      expectedImprovement := 5/100 } ]

/-- Embedding of `PromptOptimizer.applyPatterns`: a left-to-right pass over
`IMPROVEMENT_PATTERNS`, applying each pattern whose predicate holds on the
progressively rewritten text and recording its name. -/
def applyPatterns (prompt : String) : String × List String :=
  IMPROVEMENT_PATTERNS.foldl
    (fun acc pat => if pat.check acc.1 then (pat.apply acc.1, acc.2 ++ [pat.name]) else acc)
    (prompt, [])

/-- The parsed judge rubric: one optional numeric field per criterion plus
the optional free-text `reasoning`.  A field is `none` when the JSON object
returned by the judge lacks it (JavaScript `evaluation[criterion]` is
`undefined`); the `structure` criterion is spelled `structure'` because
`structure` is a Lean keyword. -/
structure Criteria where
  clarity : Option ℚ
  specificity : Option ℚ
  completeness : Option ℚ
  structure' : Option ℚ
  effectiveness : Option ℚ
  reasoning : Option String
deriving DecidableEq

/-- The empty rubric: the parse result of the literal `"{}"` content. -/
def Criteria.empty : Criteria :=
  ⟨none, none, none, none, none, none⟩

/-- The `EVALUATION_CRITERIA` weights of `optimizer.ts` (clarity 0.25,
specificity 0.25, completeness 0.20, structure 0.15, effectiveness 0.15),
paired here with the corresponding field of a parsed rubric, in the object
iteration order used by `Object.entries` in the source. -/
def EVALUATION_CRITERIA (c : Criteria) : List (Option ℚ × ℚ) :=
  [ (c.clarity, 25/100)
  , (c.specificity, 25/100)
  , (c.completeness, 20/100)
  , (c.structure', 15/100)
  , (c.effectiveness, 15/100) ]

/-- The weighted-score loop of `scorePrompt`: `(evaluation[criterion] || 0)
/ 10 * weight` summed over `EVALUATION_CRITERIA` (a missing criterion, like
the falsy value `0` itself, contributes `0`). -/
def weightedScore (c : Criteria) : ℚ :=
  (EVALUATION_CRITERIA c).foldl (fun acc cw => acc + (cw.1.getD 0 / 10) * cw.2) 0

/-- Embedding of `PromptOptimizer.quickHeuristicFallback`: the deterministic
local score used only when the judge response cannot be parsed. -/
def quickHeuristicFallback (prompt : String) : ℚ :=
  let score : ℚ := 5/10
  let score := if 50 < prompt.length ∧ prompt.length < 500 then score + 1/10 else score
  let score := if includes prompt "\n" then score + 5/100 else score
  let score := if matchDigitDot prompt then score + 5/100 else score
  let score := if includes (strToLower prompt) "step by step" then score + 1/10 else score
  min score 1

/-- Outcome of one judge call, at the granularity `scorePrompt` inspects it:
`parsed c` models response content that `JSON.parse` accepts (yielding the
rubric `c`), `empty` models absent or empty content (which the source
replaces by `'{}'` via `content || '{}'`, an object with no fields), and
`malformed` models content on which `JSON.parse` throws (e.g. the literal
string `"not json"`). -/
inductive JudgeResponse where
  | parsed (c : Criteria)
  | empty
  | malformed
deriving DecidableEq

/-- The retained evaluation record (`lastEvaluation` in `optimizer.ts`). -/
structure Evaluation where
  scores : Criteria
  reasoning : Option String
  weightedScore : ℚ
deriving DecidableEq

/-- Embedding of `PromptOptimizer.scorePrompt` below the transport layer:
given the parse outcome of the judge response, the prompt being scored and
the previously retained evaluation record, it returns the score together
with the new retained record.  On a parse success the weighted score is
computed and the record replaced; on a parse failure the catch-block falls
back to `quickHeuristicFallback` and the record is left untouched (the
assignment to `lastEvaluation` sits inside the `try` block, after the
parse).  The embedding is total: the caller never sees an exception. -/
def scorePromptPure (resp : JudgeResponse) (prompt : String)
    (lastEvaluation : Option Evaluation) : ℚ × Option Evaluation :=
  match resp with
  | .parsed c =>
      (weightedScore c, some ⟨c, c.reasoning, weightedScore c⟩)
  | .empty =>
      (weightedScore Criteria.empty,
        some ⟨Criteria.empty, Criteria.empty.reasoning, weightedScore Criteria.empty⟩)
  | .malformed => (quickHeuristicFallback prompt, lastEvaluation)

/-- Embedding of `PromptOptimizer.getLastEvaluation`: returns the retained
evaluation record. -/
def getLastEvaluation (lastEvaluation : Option Evaluation) : Option Evaluation :=
  lastEvaluation

/-- Embedding of `PromptOptimizer.checkConvergence`: false on fewer than
`convergenceWindow` scores, otherwise true iff `max − min` over the last
`convergenceWindow` scores is strictly below `convergenceThreshold`. -/
def checkConvergence (cfg : Config) (scores : List ℚ) : Bool :=
  if scores.length < cfg.convergenceWindow then false
  else
    let recent := lastSlice cfg.convergenceWindow scores
    decide (listMax recent - listMin recent < cfg.convergenceThreshold)

/-- The fields of a stored `PromptRecord` (`src/types.ts`) that the
optimization engine reads: the prompt text and the success-rate metric used
by `learnFromSimilar` to rank similar records. -/
structure PromptMetrics where
  success_rate : ℚ
deriving DecidableEq

/-- A stored historical prompt record, restricted to the fields consumed by
`PromptOptimizer` (`prompt_text` and `metrics`). -/
structure PromptRecord where
  prompt_text : String
  metrics : PromptMetrics
deriving DecidableEq

/-- Embedding of `content?.trim() || fallback`, the way both generation
call sites of `optimizer.ts` extract a usable candidate from the optional
response content: absent or whitespace-only content yields the fallback
prompt unchanged. -/
def contentOr (content : Option String) (fallbackText : String) : String :=
  match content with
  | none => fallbackText
  | some s => if strTrim s = "" then fallbackText else strTrim s

/-- An entry of the human-readable `improvements` audit log produced by
`optimize`.  The source stores formatted strings (percentages rendered with
`toFixed`); the embedding keeps the same events with their numeric payloads
and elides the decimal formatting. -/
inductive LogEntry where
  | originalScore (score : ℚ)
  | appliedPattern (name : String)
  | ragImprovement (learnedFrom : Nat)
  | iterationImproved (iteration : Nat) (delta : ℚ) (newScore : ℚ)
  | iterationReason (reasoning : String)
  | iterationNoImprovement (iteration : Nat) (candidateScore : ℚ) (currentScore : ℚ)
  | converged
  | targetReached (target : ℚ)
deriving DecidableEq

/-- Embedding of `PromptOptimizer.learnFromSimilar` below the transport
layer: the records are sorted descending by `metrics.success_rate`, the top
3 texts form the context of the generation call (whose optional response
content is the `learnContent` oracle argument), and the result is the
improved text plus the number of prompts learned from (the payload of the
`Learned from N high-performing prompts` insight string). -/
def learnFromSimilar (learnContent : Option String) (prompt : String)
    (similarPrompts : List PromptRecord) : String × Nat :=
  let sorted := similarPrompts.mergeSort (fun a b => b.metrics.success_rate ≤ a.metrics.success_rate)
  let topPrompts := (sorted.take 3).map (fun p => p.prompt_text)
  (contentOr learnContent prompt, topPrompts.length)

/-- The request `PromptOptimizer.generateCandidate` sends to the generation
call: the meta-prompt's historical context (last 5 history entries, each as
a preview of the first 100 characters of the prompt plus its score — the
decimal formatting of `toFixed(2)` is elided), the current prompt, and the
domain. -/
structure GenRequest where
  historyContext : List (String × ℚ)
  currentPrompt : String
  domain : String
deriving DecidableEq

/-- Builds the `GenRequest` of `PromptOptimizer.generateCandidate` from the
run history (`this.history.slice(-5)`, previews via `h.prompt.slice(0,
100)`), the current prompt and the domain. -/
def generateCandidateRequest (history : List (String × ℚ))
    (currentPrompt domain : String) : GenRequest :=
  { historyContext := (lastSlice 5 history).map (fun h => (strTake h.1 100, h.2))
    currentPrompt := currentPrompt
    domain := domain }

/-- The run-local mutable state of one `optimize()` call: the current
prompt and score, the iteration counter, the append-only `scores` and
`history` sequences, the audit log, and the retained evaluation record. -/
structure LoopState where
  currentPrompt : String
  currentScore : ℚ
  iterations : Nat
  scores : List ℚ
  history : List (String × ℚ)
  improvements : List LogEntry
  lastEvaluation : Option Evaluation
deriving DecidableEq

/-- One pass of the Phase-3 OPRO loop body of `PromptOptimizer.optimize`
(lines 119–154): increment the iteration counter, generate a candidate
(`gen` is the generation oracle, indexed by how many candidates were
generated before; the judge oracle is indexed by the overall judge-call
count, calls 0 and 1 having been spent on the baseline and the post-pattern
score), score it, append to `scores` and `history`, and adopt the candidate
if and only if its score strictly exceeds the current one, logging either
the improvement (plus the judge's reasoning, when present and non-empty) or
the lack of one. -/
def oproStep (domain : String) (gen : Nat → GenRequest → Option String)
    (judge : Nat → JudgeResponse) (st : LoopState) : LoopState :=
  let k := st.iterations
  let candidate :=
    contentOr (gen k (generateCandidateRequest st.history st.currentPrompt domain))
      st.currentPrompt
  let s := scorePromptPure (judge (k + 2)) candidate st.lastEvaluation
  let candidateScore := s.1
  let scores' := st.scores ++ [candidateScore]
  let history' := st.history ++ [(candidate, candidateScore)]
  if candidateScore > st.currentScore then
    let reasonLog : List LogEntry :=
      match getLastEvaluation s.2 with
      | some ev =>
          match ev.reasoning with
          | some r => if r = "" then [] else [LogEntry.iterationReason (strTake r 100)]
          | none => []
      | none => []
    { currentPrompt := candidate
      currentScore := candidateScore
      iterations := k + 1
      scores := scores'
      history := history'
      improvements := st.improvements
        ++ [LogEntry.iterationImproved (k + 1) (candidateScore - st.currentScore) candidateScore]
        ++ reasonLog
      lastEvaluation := s.2 }
  else
    { currentPrompt := st.currentPrompt
      currentScore := st.currentScore
      iterations := k + 1
      scores := scores'
      history := history'
      improvements := st.improvements
        ++ [LogEntry.iterationNoImprovement (k + 1) candidateScore st.currentScore]
      lastEvaluation := s.2 }

/-- The Phase-3 `while` loop of `PromptOptimizer.optimize`: as long as
`iterations < maxIterations`, run `oproStep`, then break (appending the
corresponding log line) when `checkConvergence` fires or the target score
is reached.  The fuel argument bounds the recursion; `optimize` supplies
`maxIterations`, which is exact since every pass increments `iterations`. -/
def oproLoop (cfg : Config) (domain : String) (gen : Nat → GenRequest → Option String)
    (judge : Nat → JudgeResponse) : Nat → LoopState → LoopState
  | 0, st => st
  | fuel + 1, st =>
    if st.iterations < cfg.maxIterations then
      let st1 := oproStep domain gen judge st
      if checkConvergence cfg st1.scores then
        { st1 with improvements := st1.improvements ++ [LogEntry.converged] }
      else if cfg.targetScore ≤ st1.currentScore then
        { st1 with improvements := st1.improvements ++ [LogEntry.targetReached cfg.targetScore] }
      else oproLoop cfg domain gen judge fuel st1
    else st

/-- Phases 1 and 2 of `PromptOptimizer.optimize` (lines 85–116): score the
unmodified original prompt (judge call 0), apply the pattern library,
apply retrieval-based learning when similar records were supplied (adopting
its output only when the text actually changed), score the current prompt
(judge call 1), seed `scores` with that score and `history` with the
original prompt/score pair, and enter the loop at iteration 0. -/
def optimizePre (judge : Nat → JudgeResponse) (learnContent : Option String)
    (originalPrompt : String) (similarPrompts : List PromptRecord) : LoopState :=
  let s0 := scorePromptPure (judge 0) originalPrompt none
  let originalScore := s0.1
  let improvements0 := [LogEntry.originalScore originalScore]
  let pat := applyPatterns originalPrompt
  let step1 : String × List LogEntry :=
    if 0 < pat.2.length then (pat.1, improvements0 ++ pat.2.map LogEntry.appliedPattern)
    else (originalPrompt, improvements0)
  let step2 : String × List LogEntry :=
    if 0 < similarPrompts.length then
      let lr := learnFromSimilar learnContent step1.1 similarPrompts
      if lr.1 ≠ step1.1 then (lr.1, step1.2 ++ [LogEntry.ragImprovement lr.2])
      else step1
    else step1
  let s1 := scorePromptPure (judge 1) step2.1 s0.2
  { currentPrompt := step2.1
    currentScore := s1.1
    iterations := 0
    scores := [s1.1]
    history := [(originalPrompt, originalScore)]
    improvements := step2.2
    lastEvaluation := s1.2 }

/-- The `OptimizePromptResult` record of `src/types.ts`, with the audit log
kept as structured `LogEntry` values. -/
structure OptimizeResult where
  original_prompt : String
  optimized_prompt : String
  improvements_made : List LogEntry
  iterations : Nat
  estimated_improvement : ℚ
  similar_prompts_used : Nat
deriving DecidableEq

/-- Embedding of the whole `PromptOptimizer.optimize`: phases 1–2, the OPRO
loop, and the assembly of the result record, with `estimated_improvement`
computed as the final score minus the baseline score of the unmodified
original prompt. -/
def optimize (cfg : Config) (judge : Nat → JudgeResponse)
    (learnContent : Option String) (gen : Nat → GenRequest → Option String)
    (originalPrompt : String) (similarPrompts : List PromptRecord)
    (domain : String) : OptimizeResult :=
  let originalScore := (scorePromptPure (judge 0) originalPrompt none).1
  let pre := optimizePre judge learnContent originalPrompt similarPrompts
  let fin := oproLoop cfg domain gen judge cfg.maxIterations pre
  { original_prompt := originalPrompt
    optimized_prompt := fin.currentPrompt
    improvements_made := fin.improvements
    iterations := fin.iterations
    estimated_improvement := fin.currentScore - originalScore
    similar_prompts_used := similarPrompts.length }

/-- The three running sums of `EmbeddingService.cosineSimilarity`
(`src/embeddings.ts`): dot product, squared norm of `a`, squared norm of
`b`, accumulated over the paired entries exactly as the source's single
loop does. -/
def cosineSums (a b : List ℚ) : ℚ × ℚ × ℚ :=
  (a.zip b).foldl
    (fun acc p => (acc.1 + p.1 * p.2, acc.2.1 + p.1 * p.1, acc.2.2 + p.2 * p.2))
    (0, 0, 0)

/-- Embedding of `EmbeddingService.cosineSimilarity`.  Mismatched lengths
raise (here: return) the dimension-mismatch error; otherwise the result is
`dotProduct / (Math.sqrt(normA) * Math.sqrt(normB))`.  `Math.sqrt` is
modelled by the `sqrt` parameter, an exact-arithmetic stand-in for the
floating-point square root; the theorems constrain it by `sqrt s * sqrt s =
s` at the points where it is used. -/
def cosineSimilarity (sqrt : ℚ → ℚ) (a b : List ℚ) : Except String ℚ :=
  if a.length ≠ b.length then .error "Embedding dimensions must match"
  else
    let s := cosineSums a b
    .ok (s.1 / (sqrt s.2.1 * sqrt s.2.2))

/-- Sum of squares of a vector: the value of the `normA` (and `normB`)
accumulator of `cosineSimilarity` on equal vectors; used to state the
cosine-similarity theorems. -/
def selfDot : List ℚ → ℚ
  | [] => 0
  | x :: xs => x * x + selfDot xs

/-- Demonstration judge rubric: all five criteria at 5 (weighted score
0.5). -/
def demoCriteriaLow : Criteria :=
  ⟨some 5, some 5, some 5, some 5, some 5, some "Vague prompt"⟩

/-- Demonstration judge rubric: all five criteria at 8 (weighted score
0.8). -/
def demoCriteriaHigh : Criteria :=
  ⟨some 8, some 8, some 8, some 8, some 8, some "Better with patterns"⟩

/-- Demonstration judge oracle: the baseline call scores 0.5, every later
call scores 0.8. -/
def demoJudge : Nat → JudgeResponse :=
  fun k => if k = 0 then .parsed demoCriteriaLow else .parsed demoCriteriaHigh

/-- Demonstration configuration: the defaults with a zero iteration budget,
so a run consists of the pattern/RAG phases only. -/
def demoConfig : Config :=
  { DEFAULT_CONFIG with maxIterations := 0 }

/-- Demonstration generation oracle that never returns content. -/
def demoGen : Nat → GenRequest → Option String :=
  fun _ _ => none

/-- Helper: the heuristic fallback score always lies between 1/2 and 1. -/
theorem quickHeuristicFallback_bounds (p : String) :
    1/2 ≤ quickHeuristicFallback p ∧ quickHeuristicFallback p ≤ 1 := by
  constructor
  · simp only [quickHeuristicFallback]
    refine le_min ?_ (by norm_num)
    split_ifs <;> norm_num
  · exact min_le_right _ _

/-- Claim C2: `checkConvergence` returns false on fewer than
`convergenceWindow` scores; on at least `convergenceWindow` scores it
returns true iff `max − min` over the last `convergenceWindow` scores is
strictly below `convergenceThreshold`; with the default configuration the
sequence `[0.5, 0.6, 0.75, 0.76, 0.76, 0.77]` converges and the sequence
`[0.5, 0.6, 0.7, 0.8, 0.9]` does not. -/
theorem c2_checkConvergence_spec (cfg : Config) (s : List ℚ) :
    (s.length < cfg.convergenceWindow → checkConvergence cfg s = false)
    ∧ (cfg.convergenceWindow ≤ s.length →
        (checkConvergence cfg s = true ↔
          listMax (lastSlice cfg.convergenceWindow s)
            - listMin (lastSlice cfg.convergenceWindow s) < cfg.convergenceThreshold))
    ∧ checkConvergence DEFAULT_CONFIG [5/10, 6/10, 75/100, 76/100, 76/100, 77/100] = true
    ∧ checkConvergence DEFAULT_CONFIG [5/10, 6/10, 7/10, 8/10, 9/10] = false := by
  refine ⟨fun h => ?_, fun h => ?_, ?_, ?_⟩
  · simp [checkConvergence, h]
  · simp [checkConvergence, Nat.not_lt.mpr h]
  · simp only [checkConvergence, DEFAULT_CONFIG, lastSlice, listMax, listMin, List.length_cons,
      List.length_nil, List.drop, List.foldl_cons, List.foldl_nil]
    norm_num
  · simp only [checkConvergence, DEFAULT_CONFIG, lastSlice, listMax, listMin, List.length_cons,
      List.length_nil, List.drop, List.foldl_cons, List.foldl_nil]
    norm_num

/-- Witness for C2: the theorem applied at concrete inputs, with both
hypotheses discharged there. -/
theorem c2_witness :
    checkConvergence DEFAULT_CONFIG [5/10, 6/10] = false
    ∧ (checkConvergence DEFAULT_CONFIG [5/10, 6/10, 75/100, 76/100, 76/100, 77/100] = true ↔
        listMax (lastSlice DEFAULT_CONFIG.convergenceWindow
            [5/10, 6/10, 75/100, 76/100, 76/100, 77/100])
          - listMin (lastSlice DEFAULT_CONFIG.convergenceWindow
            [5/10, 6/10, 75/100, 76/100, 76/100, 77/100]) < DEFAULT_CONFIG.convergenceThreshold) :=
  ⟨(c2_checkConvergence_spec DEFAULT_CONFIG [5/10, 6/10]).1 (by norm_num [DEFAULT_CONFIG]),
   (c2_checkConvergence_spec DEFAULT_CONFIG
      [5/10, 6/10, 75/100, 76/100, 76/100, 77/100]).2.1 (by norm_num [DEFAULT_CONFIG])⟩

/-- Claim C3: on a judge response parsed into the full five-criterion
rubric, `scorePrompt` returns the weighted sum of `value/10 × weight` with
the fixed weights 0.25, 0.25, 0.20, 0.15, 0.15; for the rubric
`{clarity: 8, specificity: 7, completeness: 6, structure: 8,
effectiveness: 7}` the score is exactly 0.72. -/
theorem c3_weighted_score (v1 v2 v3 v4 v5 : ℚ) (r : Option String)
    (p : String) (prev : Option Evaluation) :
    (scorePromptPure (.parsed ⟨some v1, some v2, some v3, some v4, some v5, r⟩) p prev).1
      = v1/10 * (25/100) + v2/10 * (25/100) + v3/10 * (20/100)
        + v4/10 * (15/100) + v5/10 * (15/100)
    ∧ (scorePromptPure (.parsed ⟨some 8, some 7, some 6, some 8, some 7, r⟩) p prev).1
      = 72/100 := by
  constructor
  · simp only [scorePromptPure, weightedScore, EVALUATION_CRITERIA, List.foldl_cons,
      List.foldl_nil, Option.getD_some]
    ring
  · simp only [scorePromptPure, weightedScore, EVALUATION_CRITERIA, List.foldl_cons,
      List.foldl_nil, Option.getD_some]
    norm_num

/-- Claim C4: on an unparseable judge response (e.g. the literal content
`"not json"`), `scorePrompt` returns the deterministic local heuristic
score of the prompt text instead of throwing, and that heuristic score
always lies in the interval (0, 1]. -/
theorem c4_fallback_score_in_unit_interval (p : String) (prev : Option Evaluation) :
    (scorePromptPure .malformed p prev).1 = quickHeuristicFallback p
    ∧ 0 < quickHeuristicFallback p
    ∧ quickHeuristicFallback p ≤ 1 := by
  refine ⟨rfl, ?_, (quickHeuristicFallback_bounds p).2⟩
  calc (0 : ℚ) < 1/2 := by norm_num
    _ ≤ quickHeuristicFallback p := (quickHeuristicFallback_bounds p).1

/-- Counterexample to claim C5: a judged evaluation (reasoning
`"Good prompt"`, full rubric) followed by a `scorePrompt` call that takes
the heuristic fallback path leaves the retained evaluation record exactly
as it was before the call — the record still carries the earlier non-empty
reasoning and scores, so the fallback leaves no observable mark. -/
theorem c5_counterexample :
    (scorePromptPure .malformed "second prompt"
        (scorePromptPure (.parsed ⟨some 8, some 7, some 6, some 8, some 7, some "Good prompt"⟩)
          "Test prompt" none).2).2
      = (scorePromptPure (.parsed ⟨some 8, some 7, some 6, some 8, some 7, some "Good prompt"⟩)
          "Test prompt" none).2
    ∧ ((scorePromptPure (.parsed ⟨some 8, some 7, some 6, some 8, some 7, some "Good prompt"⟩)
          "Test prompt" none).2).map Evaluation.reasoning = some (some "Good prompt")
    ∧ ((scorePromptPure (.parsed ⟨some 8, some 7, some 6, some 8, some 7, some "Good prompt"⟩)
          "Test prompt" none).2).map Evaluation.scores ≠ some Criteria.empty := by
  refine ⟨rfl, rfl, ?_⟩
  simp [scorePromptPure, Criteria.empty]

/-- Claim C5 as amended: a `scorePrompt` call that takes the heuristic
fallback path leaves the retained evaluation record (`getLastEvaluation`)
unchanged from before the call; the degraded fallback leaves no observable
mark in the record. -/
theorem c5_fallback_leaves_record_unchanged (p : String) (prev : Option Evaluation) :
    (scorePromptPure .malformed p prev).2 = prev
    ∧ getLastEvaluation (scorePromptPure .malformed p prev).2 = getLastEvaluation prev :=
  ⟨rfl, rfl⟩

/-- Claim C9: a judge response that parses but lacks criteria fields does
not use the heuristic fallback — each missing criterion contributes 0, so
empty or absent content (treated as `"{}"`) yields the score 0 with the
retained record replaced by an all-empty judged record, while the fallback
range is bounded away from 0. -/
theorem c9_empty_object_scores_zero (c : Criteria) (p : String) (prev : Option Evaluation) :
    (scorePromptPure .empty p prev).1 = 0
    ∧ (scorePromptPure .empty p prev).2 = some ⟨Criteria.empty, none, 0⟩
    ∧ (scorePromptPure (.parsed c) p prev).1
      = (c.clarity.getD 0)/10 * (25/100) + (c.specificity.getD 0)/10 * (25/100)
        + (c.completeness.getD 0)/10 * (20/100) + (c.structure'.getD 0)/10 * (15/100)
        + (c.effectiveness.getD 0)/10 * (15/100)
    ∧ 0 < quickHeuristicFallback p := by
  refine ⟨?_, ?_, ?_, ?_⟩
  · simp only [scorePromptPure, weightedScore, EVALUATION_CRITERIA, Criteria.empty,
      List.foldl_cons, List.foldl_nil, Option.getD_none]
    norm_num
  · simp only [scorePromptPure, weightedScore, EVALUATION_CRITERIA, Criteria.empty,
      List.foldl_cons, List.foldl_nil, Option.getD_none]
    norm_num
  · simp only [scorePromptPure, weightedScore, EVALUATION_CRITERIA, List.foldl_cons,
      List.foldl_nil]
    ring
  · calc (0 : ℚ) < 1/2 := by norm_num
      _ ≤ quickHeuristicFallback p := (quickHeuristicFallback_bounds p).1

/-- Helper: a pass of the `applyPatterns` fold over any pattern list leaves
the accumulator unchanged when no pattern's predicate holds on the running
text. -/
theorem foldl_patterns_no_fire (pats : List Pattern) (s : String) (l : List String)
    (h : ∀ pat ∈ pats, pat.check s = false) :
    pats.foldl
      (fun acc pat => if pat.check acc.1 then (pat.apply acc.1, acc.2 ++ [pat.name]) else acc)
      (s, l) = (s, l) := by
  induction pats generalizing l with
  | nil => rfl
  | cons q qs ih =>
    have hq : q.check s = false := h q (List.mem_cons_self q qs)
    simp only [List.foldl_cons, hq, Bool.false_eq_true, if_false]
    exact ih l (fun pat hm => h pat (List.mem_cons_of_mem q hm))

/-- Counterexample to claim C8: `applyPatterns` is not idempotent on every
prompt.  On `"Please think through the problem."` the chain-of-thought
pattern is skipped (the text already says `think through`), so nothing
introduces the substring `step`, and a second application fires
`add_structure` again: the applied-pattern list of the second run is
non-empty and the text changes again. -/
theorem c8_counterexample :
    (applyPatterns (applyPatterns "Please think through the problem.").1).2 ≠ ([] : List String)
    ∧ (applyPatterns (applyPatterns "Please think through the problem.").1).1
      ≠ (applyPatterns "Please think through the problem.").1 := by
  constructor
  · decide
  · decide

/-- Claim C8 as amended: `applyPatterns` applied to an output of
`applyPatterns` on which no pattern predicate holds returns that output
unchanged with an empty applied-pattern list.  (Unconditional idempotence
fails: a predicate can hold again on the output, see the counterexample.) -/
theorem c8_applyPatterns_idempotent_when_stable (p : String)
    (h : ∀ pat ∈ IMPROVEMENT_PATTERNS, pat.check (applyPatterns p).1 = false) :
    applyPatterns (applyPatterns p).1 = ((applyPatterns p).1, []) :=
  foldl_patterns_no_fire IMPROVEMENT_PATTERNS (applyPatterns p).1 [] h

/-- Witness for C8: on `"Analyze this."` every pattern predicate is false
on the first output, and the second application is the identity with an
empty applied list. -/
theorem c8_witness :
    (∀ pat ∈ IMPROVEMENT_PATTERNS, pat.check (applyPatterns "Analyze this.").1 = false)
    ∧ applyPatterns (applyPatterns "Analyze this.").1 = ((applyPatterns "Analyze this.").1, []) :=
  ⟨by decide, c8_applyPatterns_idempotent_when_stable "Analyze this." (by decide)⟩

/-- Helper: the three accumulated sums of `cosineSimilarity` on `zip v v`
are each the sum of squares of `v` (offset by the initial accumulator). -/
theorem cosineSums_self_aux (v : List ℚ) (x y z : ℚ) :
    (v.zip v).foldl
      (fun acc p => (acc.1 + p.1 * p.2, acc.2.1 + p.1 * p.1, acc.2.2 + p.2 * p.2))
      (x, y, z)
      = (x + selfDot v, y + selfDot v, z + selfDot v) := by
  induction v generalizing x y z with
  | nil => simp [selfDot]
  | cons a t ih =>
    simp only [List.zip_cons_cons, List.foldl_cons, ih, selfDot, Prod.mk.injEq]
    refine ⟨by ring, by ring, by ring⟩

/-- Helper: the accumulated sums of `cosineSimilarity` on `zip v (-v)`:
the dot product is the negated sum of squares, both norms are the sum of
squares. -/
theorem cosineSums_neg_aux (v : List ℚ) (x y z : ℚ) :
    (v.zip (v.map (fun t => -t))).foldl
      (fun acc p => (acc.1 + p.1 * p.2, acc.2.1 + p.1 * p.1, acc.2.2 + p.2 * p.2))
      (x, y, z)
      = (x - selfDot v, y + selfDot v, z + selfDot v) := by
  induction v generalizing x y z with
  | nil => simp [selfDot]
  | cons a t ih =>
    simp only [List.map_cons, List.zip_cons_cons, List.foldl_cons, ih, selfDot, Prod.mk.injEq]
    refine ⟨by ring, by ring, by ring⟩

/-- Claim C10 as amended: for every vector `v` whose sum of squares is
non-zero (with the square root modelled exactly at that point),
`cosineSimilarity v v = 1` and `cosineSimilarity v (-v) = -1`; vectors of
different lengths yield the dimension-mismatch error.  (The all-zero
vector, on which the claim as stated fails, is excluded.) -/
theorem c10_cosine_similarity (sqrt : ℚ → ℚ) (v a b : List ℚ)
    (hs : sqrt (selfDot v) * sqrt (selfDot v) = selfDot v)
    (hnz : selfDot v ≠ 0)
    (hab : a.length ≠ b.length) :
    cosineSimilarity sqrt v v = Except.ok 1
    ∧ cosineSimilarity sqrt v (v.map (fun x => -x)) = Except.ok (-1)
    ∧ cosineSimilarity sqrt a b = Except.error "Embedding dimensions must match" := by
  have h0 : cosineSums v v = (selfDot v, selfDot v, selfDot v) := by
    simpa using cosineSums_self_aux v 0 0 0
  have h1 : cosineSums v (v.map (fun t => -t)) = (-(selfDot v), selfDot v, selfDot v) := by
    have := cosineSums_neg_aux v 0 0 0
    simpa using this
  refine ⟨?_, ?_, ?_⟩
  · simp only [cosineSimilarity, cosineSums] at h0 ⊢
    rw [if_neg (by simp)]
    rw [h0]
    simp only [hs]
    rw [div_self hnz]
  · simp only [cosineSimilarity, cosineSums] at h1 ⊢
    rw [if_neg (by simp)]
    rw [h1]
    simp only [hs]
    rw [neg_div, div_self hnz]
  · simp [cosineSimilarity, hab]

/-- Witness for C10: the amended theorem at `v = [3, 4]` (sum of squares
25, square root 5), with the mismatch case at `[1]` versus `[1, 2]`. -/
theorem c10_witness :
    cosineSimilarity (fun _ => (5 : ℚ)) [3, 4] [3, 4] = Except.ok 1
    ∧ cosineSimilarity (fun _ => (5 : ℚ)) [3, 4] ([3, 4].map (fun x => -x)) = Except.ok (-1)
    ∧ cosineSimilarity (fun _ => (5 : ℚ)) [1] [1, 2]
      = Except.error "Embedding dimensions must match" :=
  c10_cosine_similarity (fun _ => 5) [3, 4] [1] [1, 2]
    (by norm_num [selfDot]) (by norm_num [selfDot]) (by norm_num)

/-- Counterexample to claim C10 as stated: on the all-zero vector `[0]`
the similarity is `0/0`, not approximately 1 (the rational embedding's
total division yields 0 here; the JavaScript source yields `NaN` — under
neither reading is it 1). -/
theorem c10_counterexample :
    cosineSimilarity (fun _ => (0 : ℚ)) [0] [0] = Except.ok 0
    ∧ (Except.ok (0 : ℚ) : Except String ℚ) ≠ Except.ok 1 := by
  constructor
  · simp [cosineSimilarity, cosineSums]
  · simp

/-- Helper: one OPRO step never decreases the current score (it adopts the
candidate only on strict improvement). -/
theorem oproStep_currentScore_mono (domain : String) (gen : Nat → GenRequest → Option String)
    (judge : Nat → JudgeResponse) (st : LoopState) :
    st.currentScore ≤ (oproStep domain gen judge st).currentScore := by
  simp only [oproStep]
  split
  · next h => exact le_of_lt h
  · exact le_refl _

/-- Helper: the OPRO loop never decreases the current score. -/
theorem oproLoop_currentScore_mono (cfg : Config) (domain : String)
    (gen : Nat → GenRequest → Option String) (judge : Nat → JudgeResponse) :
    ∀ (fuel : Nat) (st : LoopState),
      st.currentScore ≤ (oproLoop cfg domain gen judge fuel st).currentScore := by
  intro fuel
  induction fuel with
  | zero => intro st; exact le_refl _
  | succ n ih =>
    intro st
    simp only [oproLoop]
    split
    · split
      · exact oproStep_currentScore_mono domain gen judge st
      · split
        · exact oproStep_currentScore_mono domain gen judge st
        · exact le_trans (oproStep_currentScore_mono domain gen judge st) (ih _)
    · exact le_refl _

/-- Helper: one OPRO step appends exactly one entry to the history. -/
theorem oproStep_history (domain : String) (gen : Nat → GenRequest → Option String)
    (judge : Nat → JudgeResponse) (st : LoopState) :
    ∃ e, (oproStep domain gen judge st).history = st.history ++ [e] := by
  simp only [oproStep]
  split
  · exact ⟨_, rfl⟩
  · exact ⟨_, rfl⟩

/-- Helper: the head of a non-empty list is unchanged by appending. -/
theorem head?_append_of_ne_nil (l l' : List α) (h : l ≠ []) :
    (l ++ l').head? = l.head? := by
  cases l with
  | nil => exact absurd rfl h
  | cons a t => rfl

/-- Helper: the OPRO loop only appends to the history, so the first history
entry is preserved. -/
theorem oproLoop_history_head (cfg : Config) (domain : String)
    (gen : Nat → GenRequest → Option String) (judge : Nat → JudgeResponse) :
    ∀ (fuel : Nat) (st : LoopState), st.history ≠ [] →
      (oproLoop cfg domain gen judge fuel st).history.head? = st.history.head? := by
  intro fuel
  induction fuel with
  | zero => intro st _; rfl
  | succ n ih =>
    intro st h
    obtain ⟨e, he⟩ := oproStep_history domain gen judge st
    simp only [oproLoop]
    split
    · split
      · simp only [he]
        exact head?_append_of_ne_nil st.history [e] h
      · split
        · simp only [he]
          exact head?_append_of_ne_nil st.history [e] h
        · rw [ih _ (by simp [he])]
          simp only [he]
          exact head?_append_of_ne_nil st.history [e] h
    · rfl

/-- Claim C1: in every OPRO iteration the generated candidate is adopted as
the current prompt (and its score as the current score) if and only if the
candidate's score strictly exceeds the current score — a tie or lower score
leaves both unchanged — and consequently the current score never decreases,
across one step and across the whole loop. -/
theorem c1_strict_improvement_adoption (cfg : Config) (domain : String)
    (gen : Nat → GenRequest → Option String) (judge : Nat → JudgeResponse)
    (st : LoopState) :
    ((oproStep domain gen judge st).currentPrompt, (oproStep domain gen judge st).currentScore)
      = (if (scorePromptPure (judge (st.iterations + 2))
              (contentOr (gen st.iterations
                (generateCandidateRequest st.history st.currentPrompt domain)) st.currentPrompt)
              st.lastEvaluation).1 > st.currentScore
         then (contentOr (gen st.iterations
                 (generateCandidateRequest st.history st.currentPrompt domain)) st.currentPrompt,
               (scorePromptPure (judge (st.iterations + 2))
                 (contentOr (gen st.iterations
                   (generateCandidateRequest st.history st.currentPrompt domain)) st.currentPrompt)
                 st.lastEvaluation).1)
         else (st.currentPrompt, st.currentScore))
    ∧ st.currentScore ≤ (oproStep domain gen judge st).currentScore
    ∧ ∀ fuel, st.currentScore ≤ (oproLoop cfg domain gen judge fuel st).currentScore := by
  refine ⟨?_, oproStep_currentScore_mono domain gen judge st,
    fun fuel => oproLoop_currentScore_mono cfg domain gen judge fuel st⟩
  by_cases h : (scorePromptPure (judge (st.iterations + 2))
      (contentOr (gen st.iterations
        (generateCandidateRequest st.history st.currentPrompt domain)) st.currentPrompt)
      st.lastEvaluation).1 > st.currentScore
  · simp only [oproStep, if_pos h]
  · simp only [oproStep, if_neg h]

/-- Claim C6: a completed `optimize()` run returns `estimated_improvement`
equal to the final score minus the baseline score of the original
unmodified prompt (judge call 0, before any pattern or RAG rewriting), and
`similar_prompts_used` equal to the number of supplied similar records; the
demonstration run (baseline 0.5, post-pattern score 0.8, zero-iteration
budget) shows the baseline is the original score, not the post-pattern
score: the estimate is 0.3, not final minus post-pattern (which is 0). -/
theorem c6_estimated_improvement_baseline (cfg : Config) (judge : Nat → JudgeResponse)
    (learnContent : Option String) (gen : Nat → GenRequest → Option String)
    (originalPrompt : String) (similarPrompts : List PromptRecord) (domain : String) :
    (optimize cfg judge learnContent gen originalPrompt similarPrompts domain).estimated_improvement
      = (oproLoop cfg domain gen judge cfg.maxIterations
          (optimizePre judge learnContent originalPrompt similarPrompts)).currentScore
        - (scorePromptPure (judge 0) originalPrompt none).1
    ∧ (optimize cfg judge learnContent gen originalPrompt similarPrompts domain).similar_prompts_used
      = similarPrompts.length
    ∧ (optimize demoConfig demoJudge none demoGen "Do stuff" [] "general").estimated_improvement
      = 3/10
    ∧ (optimize demoConfig demoJudge none demoGen "Do stuff" [] "general").estimated_improvement
      ≠ (oproLoop demoConfig "general" demoGen demoJudge demoConfig.maxIterations
          (optimizePre demoJudge none "Do stuff" [])).currentScore
        - (optimizePre demoJudge none "Do stuff" []).currentScore := by
  have hmax : demoConfig.maxIterations = 0 := rfl
  have hloop : ∀ st : LoopState,
      oproLoop demoConfig "general" demoGen demoJudge demoConfig.maxIterations st = st := by
    intro st; rw [hmax]; rfl
  have hpre : (optimizePre demoJudge none "Do stuff" []).currentScore
      = weightedScore demoCriteriaHigh := by
    simp only [optimizePre, demoJudge, scorePromptPure]
    norm_num
  have hbase : (scorePromptPure (demoJudge 0) "Do stuff" none).1
      = weightedScore demoCriteriaLow := by
    simp [demoJudge, scorePromptPure]
  have hlow : weightedScore demoCriteriaLow = 5/10 := by
    simp only [weightedScore, EVALUATION_CRITERIA, demoCriteriaLow, List.foldl_cons,
      List.foldl_nil, Option.getD_some]
    norm_num
  have hhigh : weightedScore demoCriteriaHigh = 8/10 := by
    simp only [weightedScore, EVALUATION_CRITERIA, demoCriteriaHigh, List.foldl_cons,
      List.foldl_nil, Option.getD_some]
    norm_num
  refine ⟨rfl, rfl, ?_, ?_⟩
  · show (oproLoop demoConfig "general" demoGen demoJudge demoConfig.maxIterations
        (optimizePre demoJudge none "Do stuff" [])).currentScore
      - (scorePromptPure (demoJudge 0) "Do stuff" none).1 = 3/10
    rw [hloop, hpre, hbase, hlow, hhigh]
    norm_num
  · show (oproLoop demoConfig "general" demoGen demoJudge demoConfig.maxIterations
        (optimizePre demoJudge none "Do stuff" [])).currentScore
      - (scorePromptPure (demoJudge 0) "Do stuff" none).1 ≠ _
    rw [hloop, hpre, hbase, hlow, hhigh]
    norm_num

/-- Claim C7: after the pattern/RAG phases the run history is seeded with
exactly one pair — the original unmodified prompt and its baseline score
(judge call 0), not the pattern-improved prompt or score; the candidate
generator's request is then built from the last 5 history entries, so at
the first iteration its historical context is exactly the truncated
original prompt with the baseline score, and the first history entry stays
the original baseline pair throughout the loop. -/
theorem c7_history_seeded_with_original (cfg : Config) (judge : Nat → JudgeResponse)
    (learnContent : Option String) (gen : Nat → GenRequest → Option String)
    (originalPrompt : String) (similarPrompts : List PromptRecord) (domain : String) :
    (optimizePre judge learnContent originalPrompt similarPrompts).history
      = [(originalPrompt, (scorePromptPure (judge 0) originalPrompt none).1)]
    ∧ generateCandidateRequest
        (optimizePre judge learnContent originalPrompt similarPrompts).history
        (optimizePre judge learnContent originalPrompt similarPrompts).currentPrompt domain
      = { historyContext :=
            [(strTake originalPrompt 100, (scorePromptPure (judge 0) originalPrompt none).1)]
          currentPrompt := (optimizePre judge learnContent originalPrompt similarPrompts).currentPrompt
          domain := domain }
    ∧ ∀ fuel, (oproLoop cfg domain gen judge fuel
        (optimizePre judge learnContent originalPrompt similarPrompts)).history.head?
      = some (originalPrompt, (scorePromptPure (judge 0) originalPrompt none).1) := by
  refine ⟨rfl, rfl, fun fuel => ?_⟩
  rw [oproLoop_history_head cfg domain gen judge fuel _ (by simp [optimizePre])]
  rfl
